import Mathlib

/-!
Shallow embedding of the concurrent interface-monitoring engine
(`src/monitor/` of the repository): result data model, response
classification, retry policy, header construction, and the scheduling
engine, together with theorems checking the specification's claims.

Conventions of the embedding:
* Python machine state that only affects logging, wall-clock timestamps or
  opaque request/response snapshots is omitted: no claim refers to it.
* Python dicts used as ordered string maps are embedded as association
  lists with append-on-new-key update (the source only assigns keys it has
  checked to be absent, so assignment is always an append).
* Fallible operations (list indexing that can raise `IndexError`,
  constructors that can raise `ValueError`) return `Option` / `Except`.
* The HTTP transport is abstracted as an environment mapping each attempt
  to the event the `requests.request` call produced (a response with a
  status code, a timeout, a transport error, or an unexpected exception),
  mirroring the `try/except` arms of `HTTPExecutor.execute`.
-/

namespace InterfaceMonitoring

/-- The closed error taxonomy of `src/monitor/result.py` (`class ErrorType`). -/
inductive ErrorType where
  | http500
  | http404
  | http401
  | http403
  | http503
  | timeout
  | networkError
  | connectionError
  | dnsError
  | validationError
  | unknownError
deriving DecidableEq, Repr

/-- `RETRYABLE_ERRORS` from `src/monitor/result.py` (a Python set;
membership is the only operation used, so a list suffices). -/
def RETRYABLE_ERRORS : List ErrorType :=
  [ErrorType.timeout, ErrorType.networkError, ErrorType.connectionError,
   ErrorType.dnsError]

/-- `NON_RETRYABLE_ERRORS` from `src/monitor/result.py`. -/
def NON_RETRYABLE_ERRORS : List ErrorType :=
  [ErrorType.http500, ErrorType.http404, ErrorType.http503,
   ErrorType.validationError]

/-- The classification tuple `(status, status_code, error_type,
error_message, response_data)` returned by the methods of
`ResponseHandler` (`src/monitor/handlers/response_handler.py`), minus the
opaque `response_data` snapshot. -/
structure ParsedResponse where
  status : String
  status_code : Option Int
  error_type : Option ErrorType
  error_message : Option String
deriving DecidableEq, Repr

namespace ResponseHandler

/-- `ResponseHandler.parse_response`, for a response whose `status_code`
is an integer.  The source's outer `try/except` cannot fire on the paths
embedded here (snapshot extraction is omitted), and the final `else`
branch is kept exactly as in the source even though no integer reaches
it. -/
def parse_response (status_code : Int) : ParsedResponse :=
  if status_code < 400 then
    { status := "SUCCESS", status_code := some status_code,
      error_type := none, error_message := none }
  else if status_code = 404 then
    { status := "FAILED", status_code := some status_code,
      error_type := some ErrorType.http404,
      error_message := some s!"接口不存在 (HTTP {status_code})" }
  else if status_code = 500 then
    { status := "FAILED", status_code := some status_code,
      error_type := some ErrorType.http500,
      error_message := some s!"服务器内部错误 (HTTP {status_code})" }
  else if status_code = 503 then
    { status := "FAILED", status_code := some status_code,
      error_type := some ErrorType.http503,
      error_message := some s!"服务不可用 (HTTP {status_code})" }
  else if 400 ≤ status_code ∧ status_code < 500 then
    { status := "FAILED", status_code := some status_code,
      error_type := some ErrorType.validationError,
      error_message := some s!"客户端错误 (HTTP {status_code})" }
  else if 500 ≤ status_code then
    { status := "FAILED", status_code := some status_code,
      error_type := some ErrorType.http500,
      error_message := some s!"服务器错误 (HTTP {status_code})" }
  else
    { status := "FAILED", status_code := some status_code,
      error_type := some ErrorType.unknownError,
      error_message := some s!"未知错误 (HTTP {status_code})" }

/-- `ResponseHandler.handle_timeout` (the elapsed-ms figure only appears
inside the human-readable message, whose `%.2f` formatting is not
reproduced). -/
def handle_timeout (_response_time : ℚ) : ParsedResponse :=
  { status := "FAILED", status_code := none,
    error_type := some ErrorType.timeout,
    error_message := some "请求超时" }

/-- Case-insensitive substring test used to embed Python's
`'needle' in haystack.lower()`. -/
def strContains (haystack needle : String) : Bool :=
  decide (List.IsInfix needle.toLower.toList haystack.toLower.toList)

/-- `ResponseHandler.handle_network_error`, classifying a transport
exception by substrings of its type name and message. -/
def handle_network_error (exception_name error_message : String) : ParsedResponse :=
  let error_type :=
    if strContains exception_name "timeout" ∨ strContains error_message "timeout" then
      ErrorType.timeout
    else if strContains exception_name "connection" ∨ strContains error_message "connection" then
      ErrorType.connectionError
    else if strContains exception_name "dns" ∨ strContains error_message "resolve" then
      ErrorType.dnsError
    else if strContains exception_name "ssl" ∨ strContains error_message "certificate" then
      ErrorType.networkError
    else
      ErrorType.networkError
  { status := "FAILED", status_code := none,
    error_type := some error_type,
    error_message := some error_message }

end ResponseHandler

/-- `RetryConfig` from `src/monitor/retry.py`, with the Python defaults
`max_attempts=3`, `backoff_strategy=[1, 2, 4]` (seconds),
`retryable_errors=RETRYABLE_ERRORS`. -/
structure RetryConfig where
  max_attempts : Int := 3
  backoff_strategy : List ℚ := [1, 2, 4]
  retryable_errors : List ErrorType := RETRYABLE_ERRORS
deriving DecidableEq, Repr

namespace RetryConfig

/-- `RetryConfig.is_retryable`: `None` (and, in Python, the empty string)
is not retryable; otherwise membership in `retryable_errors`. -/
def is_retryable (c : RetryConfig) (error_type : Option ErrorType) : Bool :=
  match error_type with
  | none => false
  | some e => c.retryable_errors.contains e

/-- `RetryConfig.get_backoff_delay`: negative attempt → 0; an attempt
inside the strategy list indexes it; beyond it, the last entry is reused.
`none` models the `IndexError` Python raises when `backoff_strategy` is
empty and `attempt ≥ 0` (`self.backoff_strategy[-1]` on an empty list). -/
def get_backoff_delay (c : RetryConfig) (attempt : Int) : Option ℚ :=
  if attempt < 0 then some 0
  else if h : attempt.toNat < c.backoff_strategy.length then
    some (c.backoff_strategy.get ⟨attempt.toNat, h⟩)
  else
    c.backoff_strategy.getLast?

end RetryConfig

/-- `InterfaceDescriptor` (`src/scanner/models/interface.py` shape as
consumed by the monitor): the fields the monitor reads.  `headers` and
`params` are ordered string maps, embedded as association lists. -/
structure Interface where
  name : String
  method : String
  url : String
  headers : List (String × String)
  params : List (String × String)
  body : Option String
  service : String
deriving DecidableEq, Repr

/-- `MonitorResult` from `src/monitor/result.py`, minus the opaque
`request_data`/`response_data` snapshots and the wall-clock `timestamp`
(no claim refers to them).  `retry_count` defaults to 0 as in the
dataclass. -/
structure MonitorResult where
  interface : Option Interface := none
  status : String := ""
  status_code : Option Int := none
  response_time : ℚ := 0
  error_type : Option ErrorType := none
  error_message : Option String := none
  retry_count : Nat := 0
deriving DecidableEq, Repr

/-- `MonitorResult.is_success` (`status.upper() == 'SUCCESS'`; the engine
only ever stores the upper-case strings `"SUCCESS"`/`"FAILED"`, so the
`upper()` call is the identity on every produced result). -/
def MonitorResult.is_success (r : MonitorResult) : Bool :=
  r.status == "SUCCESS"

/-- What one `requests.request` call inside `HTTPExecutor.execute` did,
abstracting the HTTP transport: it returned a response with an integer
status code, raised `requests.exceptions.Timeout`, raised another
`requests.exceptions.RequestException` (carrying its type name and
message), or raised an unexpected exception.  `rt` is the measured
elapsed time in milliseconds. -/
inductive AttemptEvent where
  | response (status_code : Int) (rt : ℚ)
  | timedOut (rt : ℚ)
  | requestError (exception_name : String) (message : String) (rt : ℚ)
  | unexpected (message : String) (rt : ℚ)
deriving DecidableEq, Repr

namespace HTTPExecutor

/-- One un-decorated run of the body of `HTTPExecutor.execute`
(`src/monitor/executor.py`, lines 62-159): each `try/except` arm builds a
`MonitorResult` from the classification of the event; the attempt never
re-raises. -/
def execute_once (itf : Interface) (_token : Option String)
    (ev : AttemptEvent) : MonitorResult :=
  match ev with
  | .response code rt =>
    let p := ResponseHandler.parse_response code
    { interface := some itf, status := p.status, status_code := p.status_code,
      response_time := rt, error_type := p.error_type,
      error_message := p.error_message }
  | .timedOut rt =>
    let p := ResponseHandler.handle_timeout rt
    { interface := some itf, status := p.status, status_code := p.status_code,
      response_time := rt, error_type := p.error_type,
      error_message := p.error_message }
  | .requestError exception_name message rt =>
    let p := ResponseHandler.handle_network_error exception_name message
    { interface := some itf, status := p.status, status_code := p.status_code,
      response_time := rt, error_type := p.error_type,
      error_message := p.error_message }
  | .unexpected message rt =>
    { interface := some itf, status := "FAILED", status_code := none,
      response_time := rt, error_type := some ErrorType.unknownError,
      error_message := some message }

end HTTPExecutor

/-- Trace of one run of the `retry_on_failure` wrapper: the value the
wrapper returned (`none` models the `return None` fall-through, reachable
only when `max_attempts ≤ 0` since the wrapped `execute` never raises),
how many times the wrapped function was invoked, and the backoff delay of
every `time.sleep` performed between attempts. -/
structure RetryTrace where
  result : Option MonitorResult
  attempts : Nat
  sleeps : List (Option ℚ)
deriving DecidableEq, Repr

/-- The loop body of the `retry_on_failure` wrapper
(`src/monitor/retry.py`, lines 102-147), specialised to a wrapped
function that always returns a `MonitorResult` (as `HTTPExecutor.execute`
does), so the `except` arm is unreachable.  `attempt` is the 0-based loop
index, `fuel` the number of loop iterations remaining: the wrapper
retries exactly when the returned result carries a retryable
`error_type` and `attempt < max_attempts - 1`, sleeping
`get_backoff_delay attempt` first; otherwise it returns the result. -/
def retryGo (config : RetryConfig) (f : Nat → MonitorResult) :
    Nat → Nat → RetryTrace
  | _, 0 => { result := none, attempts := 0, sleeps := [] }
  | attempt, fuel + 1 =>
    let result := f attempt
    if config.is_retryable result.error_type ∧
        (attempt : Int) < config.max_attempts - 1 then
      let rest := retryGo config f (attempt + 1) fuel
      { result := rest.result, attempts := rest.attempts + 1,
        sleeps := config.get_backoff_delay (attempt : Int) :: rest.sleeps }
    else
      { result := some result, attempts := 1, sleeps := [] }

/-- A full run of the `retry_on_failure(config)` wrapper around `f`:
`range(config.max_attempts)` iterations starting at attempt 0. -/
def retry_on_failure_run (config : RetryConfig) (f : Nat → MonitorResult) :
    RetryTrace :=
  retryGo config f 0 config.max_attempts.toNat

namespace HTTPExecutor

/-- The decorated `HTTPExecutor.execute`: the decorator is applied as
`@retry_on_failure()` at class-definition time, so it always runs with the
DEFAULT `RetryConfig()` — the executor's own `retry_config` is never
consulted by it. -/
def execute_run (itf : Interface) (token : Option String)
    (events : Nat → AttemptEvent) : RetryTrace :=
  retry_on_failure_run {} (fun i => execute_once itf token (events i))

/-- `HTTPExecutor.execute_with_retry` (`src/monitor/executor.py`, lines
161-188): it builds a fresh `RetryConfig` from its `max_attempts`
argument but never uses it (dead code, kept here as an unused binding),
calls the decorated `execute`, and then sets `retry_count` to the literal
0 on the returned result — it does NOT record the retries performed. -/
def execute_with_retry (itf : Interface) (token : Option String)
    (events : Nat → AttemptEvent) (max_attempts : Option Int)
    (retry_config : RetryConfig) : Option MonitorResult :=
  let _unused : RetryConfig :=
    { max_attempts := max_attempts.getD retry_config.max_attempts,
      backoff_strategy := retry_config.backoff_strategy,
      retryable_errors := retry_config.retryable_errors }
  (execute_run itf token events).result.map
    (fun r => { r with retry_count := 0 })

end HTTPExecutor

/- Python `dict[str, str]` embedded as an insertion-ordered association
list; operations used by the source. -/
namespace Dict

/-- `key in d`. -/
def contains (m : List (String × String)) (k : String) : Bool :=
  m.any (fun p => p.1 == k)

/-- `d.get(key)` / `d[key]` lookup. -/
def get? (m : List (String × String)) (k : String) : Option String :=
  (m.find? (fun p => p.1 == k)).map (fun p => p.2)

/-- `d[key] = value`: overwrite in place if the key exists, else append
(Python dicts preserve insertion order). -/
def set (m : List (String × String)) (k v : String) : List (String × String) :=
  if contains m k then m.map (fun p => if p.1 == k then (p.1, v) else p)
  else m ++ [(k, v)]

end Dict

namespace HTTPHandler

/-- The auth header candidates of `HTTPHandler._prepare_headers`, tried
in this priority order. -/
def AUTH_HEADER_NAMES : List String :=
  ["Authorization", "authorization", "Auth-Token"]

/-- The `for auth_header in auth_headers: if auth_header not in result:
result[auth_header] = f"Bearer {token}"; break` loop: the token is
written under the FIRST candidate name not already present; if all three
are present nothing is written. -/
def injectToken (result : List (String × String)) (token : String) :
    List (String × String) :=
  match AUTH_HEADER_NAMES.find? (fun name => !(Dict.contains result name)) with
  | some name => Dict.set result name ("Bearer " ++ token)
  | none => result

/-- `HTTPHandler._prepare_headers`
(`src/monitor/handlers/http_handler.py`, lines 79-112): copy the incoming
headers, default `Content-Type`, inject the token if truthy (non-empty),
default `User-Agent`. -/
def prepare_headers (headers : List (String × String))
    (token : Option String) : List (String × String) :=
  let result := headers
  let result :=
    if ¬ Dict.contains result "Content-Type" ∧
        ¬ Dict.contains result "content-type" then
      Dict.set result "Content-Type" "application/json"
    else result
  let result :=
    match token with
    | some t => if t ≠ "" then injectToken result t else result
    | none => result
  let result :=
    if ¬ Dict.contains result "User-Agent" ∧
        ¬ Dict.contains result "user-agent" then
      Dict.set result "User-Agent" "Interface-Monitor/1.0"
    else result
  result

/-- How many of the three candidate auth header names are present. -/
def authNamesPresent (m : List (String × String)) : Nat :=
  (AUTH_HEADER_NAMES.filter (fun name => Dict.contains m name)).length

end HTTPHandler

/-- The configuration dict consumed by `MonitorEngine.__init__`, with the
`config.get(..., default)` defaults of the source
(`concurrency=5`, `timeout=10`, `base_url=None`, `request_interval=0`,
the latter in milliseconds). -/
structure EngineConfig where
  concurrency : Int := 5
  timeout : Int := 10
  base_url : Option String := none
  request_interval_ms : ℚ := 0
deriving DecidableEq, Repr

/-- The state of a constructed `MonitorEngine`
(`src/monitor/monitor_engine.py`): `request_interval` is stored in
seconds (`config.get('request_interval', 0) / 1000`).  The wrapped
`HTTPExecutor`, the performance monitor and the statistics lock carry no
claim-relevant state beyond `retry_config` and are not embedded. -/
structure MonitorEngine where
  concurrency : Int
  timeout : Int
  base_url : Option String
  request_interval : ℚ
  retry_config : RetryConfig
deriving DecidableEq, Repr

namespace MonitorEngine

/-- `MonitorEngine.__init__` (`src/monitor/monitor_engine.py`, lines
28-76): reads the config, then validates ONLY the concurrency
(`if self.concurrency <= 0: raise ValueError`) — the timeout is read but
not validated at construction. -/
def init (config : EngineConfig) (retry_config : Option RetryConfig) :
    Except String MonitorEngine :=
  let rc := retry_config.getD {}
  if config.concurrency ≤ 0 then
    Except.error "并发数必须大于0"
  else
    Except.ok
      { concurrency := config.concurrency, timeout := config.timeout,
        base_url := config.base_url,
        request_interval := config.request_interval_ms / 1000,
        retry_config := rc }

/-- `MonitorEngine.set_concurrency`: raises on a non-positive count. -/
def set_concurrency (e : MonitorEngine) (count : Int) :
    Except String MonitorEngine :=
  if count ≤ 0 then Except.error "并发数必须大于0"
  else Except.ok { e with concurrency := count }

/-- The effective CPU count `os.cpu_count() or 4`: `None` and `0` are
both falsy in Python, so they fall back to 4. -/
def effectiveCpuCount (cpu_count : Option Nat) : Nat :=
  match cpu_count with
  | none => 4
  | some c => if c = 0 then 4 else c

/-- The sizing formula of `MonitorEngine.optimize_for_load`:
`min(max(expected_interfaces // 10, 1), cpu_count * 2, 50)`. -/
def suggestedConcurrency (cpu_count : Option Nat)
    (expected_interfaces : Nat) : Nat :=
  min (max (expected_interfaces / 10) 1)
    (min (effectiveCpuCount cpu_count * 2) 50)

/-- `MonitorEngine.optimize_for_load` (`src/monitor/monitor_engine.py`,
lines 283-305): computes the suggestion, stores it through
`set_concurrency`, and returns it. -/
def optimize_for_load (e : MonitorEngine) (cpu_count : Option Nat)
    (expected_interfaces : Nat) : Except String (MonitorEngine × Nat) :=
  let optimal := suggestedConcurrency cpu_count expected_interfaces
  (e.set_concurrency (optimal : Int)).map (fun e2 => (e2, optimal))

end MonitorEngine

/-- The scheduling environment abstracting everything outside the
engine's control flow: `events i j` is what the HTTP transport did on the
`j`-th attempt for the interface submitted at index `i`; `deliver i`
is `none` when `future.result(timeout=self.timeout * 2)` for submission
`i` returned the worker's result, and `some msg` when it raised instead
(the worker exceeded the `2×timeout` collection wait, or an unexpected
exception escaped the worker) — both surface as the caught exception of
`src/monitor/monitor_engine.py`, line 177. -/
structure ExecEnv where
  events : Nat → Nat → AttemptEvent
  deliver : Nat → Option String

/-- `token_map.get(service) if token_map else None` — absent keys mean
"send unauthenticated". -/
def lookupToken (token_map : List (String × String)) (service : String) :
    Option String :=
  Dict.get? token_map service

namespace MonitorEngine

/-- `MonitorEngine._execute_single` (`src/monitor/monitor_engine.py`,
lines 241-269): calls `execute_with_retry` and converts any escaping
exception to an `UNKNOWN_ERROR` result.  With the transport abstracted,
`execute_with_retry` only fails to produce a result in the
`max_attempts ≤ 0` corner (the wrapper's `return None` fall-through,
which in Python would surface as an `AttributeError` caught here). -/
def execute_single_ (e : MonitorEngine) (itf : Interface)
    (token : Option String) (events : Nat → AttemptEvent) : MonitorResult :=
  match HTTPExecutor.execute_with_retry itf token events none e.retry_config with
  | some r => r
  | none =>
    { interface := some itf, status := "FAILED", status_code := none,
      response_time := 0, error_type := some ErrorType.unknownError,
      error_message := some "执行接口监控失败" }

/-- The `UNKNOWN_ERROR` result the collection loop builds when
`future.result` raises (`src/monitor/monitor_engine.py`, lines 182-192). -/
def worker_error_result (itf : Interface) (msg : String) : MonitorResult :=
  { interface := some itf, status := "FAILED", status_code := none,
    response_time := 0, error_type := some ErrorType.unknownError,
    error_message := some ("监控执行异常: " ++ msg) }

/-- The serial/paced branch of `MonitorEngine.execute`: interfaces are
processed one at a time in input order (the `time.sleep(request_interval)`
pacing has no observable effect on the result list).  `i` is the input
index. -/
def serialLoop (e : MonitorEngine) (env : ExecEnv)
    (token_map : List (String × String)) :
    Nat → List Interface → List MonitorResult
  | _, [] => []
  | i, itf :: rest =>
    e.execute_single_ itf (lookupToken token_map itf.service) (env.events i) ::
      serialLoop e env token_map (i + 1) rest

/-- One slot of the parallel collection loop: submission `i` either
delivered the worker's result or raised and is recorded as an
`UNKNOWN_ERROR` result. -/
def collectStep (e : MonitorEngine) (env : ExecEnv)
    (token_map : List (String × String)) (i : Nat) (itf : Interface) :
    MonitorResult :=
  match env.deliver i with
  | none => e.execute_single_ itf (lookupToken token_map itf.service) (env.events i)
  | some msg => worker_error_result itf msg

/-- The parallel branch of `MonitorEngine.execute`: one future per
interface, submitted in input order; results are collected by iterating
the futures list IN SUBMISSION ORDER (`for future, interface in
futures:`), not in completion order. -/
def parallelCollect (e : MonitorEngine) (env : ExecEnv)
    (token_map : List (String × String)) :
    Nat → List Interface → List MonitorResult
  | _, [] => []
  | i, itf :: rest =>
    collectStep e env token_map i itf ::
      parallelCollect e env token_map (i + 1) rest

/-- `MonitorEngine.execute` (`src/monitor/monitor_engine.py`, lines
78-223): empty input short-circuits; the per-interface serial test
`self.request_interval > 0 and self.concurrency == 1` is constant over
the loop, so the run is entirely serial or entirely parallel.  The
statistics bookkeeping mutates no result and is omitted. -/
def execute (e : MonitorEngine) (env : ExecEnv) (interfaces : List Interface)
    (token_map : List (String × String)) : List MonitorResult :=
  match interfaces with
  | [] => []
  | _ :: _ =>
    if e.request_interval > 0 ∧ e.concurrency = 1 then
      serialLoop e env token_map 0 interfaces
    else
      parallelCollect e env token_map 0 interfaces

end MonitorEngine

/- Concrete fixtures used by witnesses and closed evaluation theorems. -/

/-- A sample interface descriptor. -/
def IFACE : Interface :=
  { name := "user-api", method := "GET", url := "/api/users",
    headers := [], params := [], body := none, service := "user-service" }

/-- A second sample interface descriptor, owned by another service. -/
def IFACE2 : Interface :=
  { name := "order-api", method := "POST", url := "/api/orders",
    headers := [("X-Trace", "1")], params := [], body := some "{}",
    service := "order-service" }

/-- A transport that times out on every attempt. -/
def alwaysTimeout : Nat → AttemptEvent := fun _ => AttemptEvent.timedOut 100

/-- An attempt function whose every invocation reports HTTP 404. -/
def f404 : Nat → MonitorResult := fun _ =>
  HTTPExecutor.execute_once IFACE none (AttemptEvent.response 404 7)

/-- A sample engine in parallel mode (`concurrency=3`, no pacing). -/
def ENGINE : MonitorEngine :=
  { concurrency := 3, timeout := 10, base_url := none,
    request_interval := 0, retry_config := {} }

/-- An environment where every attempt succeeds with HTTP 200 and every
future delivers. -/
def ENV_OK : ExecEnv :=
  { events := fun _ _ => AttemptEvent.response 200 5,
    deliver := fun _ => none }

/-- An environment where attempts succeed but the future of submission 1
raises at collection time. -/
def ENV_FAIL1 : ExecEnv :=
  { events := fun _ _ => AttemptEvent.response 200 5,
    deliver := fun i => if i = 1 then some "collection wait exceeded" else none }

/- ------------------------------------------------------------------ -/
/- Theorems                                                            -/
/- ------------------------------------------------------------------ -/

/-- C6: `parse_response` classifies integer status codes exactly as
specified: `< 400` → SUCCESS with no error kind; 404/500/503 → their
dedicated kinds; other 4xx → `VALIDATION_ERROR`; other `≥ 500` →
`HTTP_500`; a value outside all those ranges (of which there is none
among the integers) → `UNKNOWN_ERROR`. -/
theorem parse_response_classification (code : Int) :
    (code < 400 → ResponseHandler.parse_response code =
      { status := "SUCCESS", status_code := some code,
        error_type := none, error_message := none }) ∧
    (code = 404 → (ResponseHandler.parse_response code).error_type =
        some ErrorType.http404 ∧
      (ResponseHandler.parse_response code).status = "FAILED") ∧
    (code = 500 → (ResponseHandler.parse_response code).error_type =
        some ErrorType.http500 ∧
      (ResponseHandler.parse_response code).status = "FAILED") ∧
    (code = 503 → (ResponseHandler.parse_response code).error_type =
        some ErrorType.http503 ∧
      (ResponseHandler.parse_response code).status = "FAILED") ∧
    (400 ≤ code → code < 500 → code ≠ 404 →
      (ResponseHandler.parse_response code).error_type =
        some ErrorType.validationError ∧
      (ResponseHandler.parse_response code).status = "FAILED") ∧
    (500 ≤ code → code ≠ 500 → code ≠ 503 →
      (ResponseHandler.parse_response code).error_type =
        some ErrorType.http500 ∧
      (ResponseHandler.parse_response code).status = "FAILED") ∧
    (¬ code < 400 → ¬ (400 ≤ code ∧ code < 500) → ¬ 500 ≤ code →
      (ResponseHandler.parse_response code).error_type =
        some ErrorType.unknownError) := by
  unfold ResponseHandler.parse_response
  refine ⟨fun h => ?_, fun h => ?_, fun h => ?_, fun h => ?_,
    fun h1 h2 h3 => ?_, fun h1 h2 h3 => ?_, fun h1 h2 h3 => ?_⟩
  · rw [if_pos h]
  · subst h; decide
  · subst h; decide
  · subst h; decide
  · rw [if_neg (by omega), if_neg h3, if_neg (by omega), if_neg (by omega),
      if_pos ⟨h1, h2⟩]
    exact ⟨rfl, rfl⟩
  · rw [if_neg (by omega), if_neg (by omega), if_neg h2, if_neg h3,
      if_neg (by omega), if_pos h1]
    exact ⟨rfl, rfl⟩
  · omega

/-- C6 witness: the classification evaluated at 200, 404, 500, 503, 430
and 599. -/
theorem parse_response_classification_witness :
    ResponseHandler.parse_response 200 =
      { status := "SUCCESS", status_code := some 200,
        error_type := none, error_message := none } ∧
    (ResponseHandler.parse_response 404).error_type = some ErrorType.http404 ∧
    (ResponseHandler.parse_response 500).error_type = some ErrorType.http500 ∧
    (ResponseHandler.parse_response 503).error_type = some ErrorType.http503 ∧
    (ResponseHandler.parse_response 430).error_type =
      some ErrorType.validationError ∧
    (ResponseHandler.parse_response 599).error_type = some ErrorType.http500 :=
  ⟨(parse_response_classification 200).1 (by decide),
   ((parse_response_classification 404).2.1 rfl).1,
   ((parse_response_classification 500).2.2.1 rfl).1,
   ((parse_response_classification 503).2.2.2.1 rfl).1,
   ((parse_response_classification 430).2.2.2.2.1 (by decide) (by decide)
     (by decide)).1,
   ((parse_response_classification 599).2.2.2.2.2.1 (by decide) (by decide)
     (by decide)).1⟩

/-- C7: for a non-empty backoff strategy, `get_backoff_delay` returns 0
for a negative attempt index, the indexed entry for an in-range index,
and the last entry for an index beyond the list; in particular for the
default strategy `[1, 2, 4]`: delay(0)=1, delay(1)=2, delay(2)=4,
delay(5)=4, delay(-1)=0. -/
theorem get_backoff_delay_spec (c : RetryConfig)
    (hne : c.backoff_strategy ≠ []) (i : Int) :
    (i < 0 → c.get_backoff_delay i = some 0) ∧
    (0 ≤ i → ∀ h : i.toNat < c.backoff_strategy.length,
      c.get_backoff_delay i = some (c.backoff_strategy.get ⟨i.toNat, h⟩)) ∧
    (0 ≤ i → c.backoff_strategy.length ≤ i.toNat →
      c.get_backoff_delay i = some (c.backoff_strategy.getLast hne)) ∧
    (({} : RetryConfig).get_backoff_delay 0 = some 1 ∧
     ({} : RetryConfig).get_backoff_delay 1 = some 2 ∧
     ({} : RetryConfig).get_backoff_delay 2 = some 4 ∧
     ({} : RetryConfig).get_backoff_delay 5 = some 4 ∧
     ({} : RetryConfig).get_backoff_delay (-1) = some 0) := by
  refine ⟨fun h => ?_, fun h0 h => ?_, fun h0 h => ?_, by decide⟩
  · rw [RetryConfig.get_backoff_delay, if_pos h]
  · rw [RetryConfig.get_backoff_delay, if_neg (by omega), dif_pos h]
  · rw [RetryConfig.get_backoff_delay, if_neg (by omega),
      dif_neg (by omega), List.getLast?_eq_getLast _ hne]

/-- C7 witness: the default strategy `[1, 2, 4]` evaluated through each
clause of the specification. -/
theorem get_backoff_delay_spec_witness :
    ({} : RetryConfig).get_backoff_delay (-1) = some 0 ∧
    ({} : RetryConfig).get_backoff_delay 1 =
      some (({} : RetryConfig).backoff_strategy.get ⟨1, by decide⟩) ∧
    ({} : RetryConfig).get_backoff_delay 5 =
      some (({} : RetryConfig).backoff_strategy.getLast (by decide)) :=
  ⟨(get_backoff_delay_spec {} (by decide) (-1)).1 (by decide),
   (get_backoff_delay_spec {} (by decide) 1).2.1 (by decide) (by decide),
   (get_backoff_delay_spec {} (by decide) 5).2.2.1 (by decide) (by decide)⟩

/-- C3 counterexample: constructing the engine with `timeout = 0` (and a
valid concurrency) succeeds — `timeout ≤ 0` is NOT rejected at
construction, contradicting the claim that it raises a configuration
error eagerly. -/
theorem engine_init_accepts_zero_timeout :
    MonitorEngine.init { concurrency := 5, timeout := 0 } none =
      Except.ok
        { concurrency := 5, timeout := 0, base_url := none,
          request_interval := 0, retry_config := {} } := by
  simp [MonitorEngine.init]

/-- C3 amended: construction fails eagerly (before any interface is
processed) exactly when `concurrency ≤ 0`; the timeout is stored
unvalidated. -/
theorem engine_init_validates_only_concurrency (config : EngineConfig)
    (rc : Option RetryConfig) :
    ((MonitorEngine.init config rc).isOk = false ↔ config.concurrency ≤ 0) ∧
    (config.concurrency ≤ 0 →
      MonitorEngine.init config rc = Except.error "并发数必须大于0") ∧
    (¬ config.concurrency ≤ 0 →
      MonitorEngine.init config rc =
        Except.ok
          { concurrency := config.concurrency, timeout := config.timeout,
            base_url := config.base_url,
            request_interval := config.request_interval_ms / 1000,
            retry_config := rc.getD {} }) := by
  unfold MonitorEngine.init
  by_cases h : config.concurrency ≤ 0
  · rw [if_pos h]
    exact ⟨by simp [Except.isOk, Except.toBool, h], fun _ => rfl,
      fun hc => absurd h hc⟩
  · rw [if_neg h]
    exact ⟨by simp [Except.isOk, Except.toBool, h], fun hc => absurd hc h,
      fun _ => rfl⟩

/-- C3 witness: `concurrency = 0` is rejected at construction while
`concurrency = 5` with `timeout = 10` is accepted. -/
theorem engine_init_validates_only_concurrency_witness :
    MonitorEngine.init { concurrency := 0 } none =
      Except.error "并发数必须大于0" ∧
    (MonitorEngine.init { concurrency := 5, timeout := 10 } none).isOk =
      true :=
  ⟨(engine_init_validates_only_concurrency { concurrency := 0 } none).2.1
      (by decide),
   by
    have h := (engine_init_validates_only_concurrency
      { concurrency := 5, timeout := 10 } none).1
    revert h
    cases hk : (MonitorEngine.init { concurrency := 5, timeout := 10 }
        none).isOk <;> simp⟩

/-- C10: `optimize_for_load` returns the suggestion
`min(max(n / 10, 1), cpuCount*2, 50)` and, as a side effect, overwrites
the engine's `concurrency` with it (through `set_concurrency`, whose
guard never fires since the suggestion is ≥ 1); `timeout`, `base_url`,
`request_interval` and `retry_config` are untouched. -/
theorem optimize_for_load_updates_concurrency (e : MonitorEngine)
    (cpu : Option Nat) (n : Nat) :
    e.optimize_for_load cpu n =
      Except.ok
        ({ e with concurrency := (MonitorEngine.suggestedConcurrency cpu n : Int) },
          MonitorEngine.suggestedConcurrency cpu n) ∧
    MonitorEngine.suggestedConcurrency cpu n =
      min (max (n / 10) 1) (min (MonitorEngine.effectiveCpuCount cpu * 2) 50) ∧
    ({ e with concurrency := (MonitorEngine.suggestedConcurrency cpu n : Int) }
        : MonitorEngine).timeout = e.timeout ∧
    ({ e with concurrency := (MonitorEngine.suggestedConcurrency cpu n : Int) }
        : MonitorEngine).base_url = e.base_url ∧
    ({ e with concurrency := (MonitorEngine.suggestedConcurrency cpu n : Int) }
        : MonitorEngine).request_interval = e.request_interval ∧
    ({ e with concurrency := (MonitorEngine.suggestedConcurrency cpu n : Int) }
        : MonitorEngine).retry_config = e.retry_config := by
  have hcpu : 1 ≤ MonitorEngine.effectiveCpuCount cpu := by
    unfold MonitorEngine.effectiveCpuCount
    cases cpu with
    | none => decide
    | some c =>
      by_cases hc : c = 0
      · simp [hc]
      · simp [hc]; omega
  have hpos : 1 ≤ MonitorEngine.suggestedConcurrency cpu n := by
    unfold MonitorEngine.suggestedConcurrency
    omega
  have hneg : ¬ ((MonitorEngine.suggestedConcurrency cpu n : Int) ≤ 0) := by
    exact_mod_cast fun h => absurd h (by omega)
  refine ⟨?_, rfl, rfl, rfl, rfl, rfl⟩
  unfold MonitorEngine.optimize_for_load MonitorEngine.set_concurrency
  simp only [if_neg hneg]
  rfl

/-- Helper: when the current attempt's outcome is not retryable, the
retry loop returns it at once: one invocation, no sleep. -/
theorem retryGo_not_retryable (config : RetryConfig)
    (f : Nat → MonitorResult) (attempt fuel : Nat)
    (h : config.is_retryable (f attempt).error_type = false) :
    retryGo config f attempt (fuel + 1) =
      { result := some (f attempt), attempts := 1, sleeps := [] } := by
  unfold retryGo
  simp [h]

/-- C1: with a transport that yields TIMEOUT on every attempt and
`maxAttempts=3`, the decorated `execute` makes exactly 3 attempts
(sleeping the first two backoff steps) and the final result is
FAILED/TIMEOUT — but `execute_with_retry` unconditionally stores
`retry_count = 0` on the result it returns, not the 2 retries actually
performed. -/
theorem execute_with_retry_reports_zero_retries_on_timeouts :
    (HTTPExecutor.execute_run IFACE none alwaysTimeout).attempts = 3 ∧
    (HTTPExecutor.execute_run IFACE none alwaysTimeout).sleeps =
      [some 1, some 2] ∧
    HTTPExecutor.execute_with_retry IFACE none alwaysTimeout (some 3) {} =
      some { interface := some IFACE, status := "FAILED",
             status_code := none, response_time := 100,
             error_type := some ErrorType.timeout,
             error_message := some "请求超时", retry_count := 0 } := by
  decide

/-- C8: a first attempt with a terminal (non-retryable) error kind is
returned after exactly 1 attempt with no sleep, for every
`maxAttempts ≥ 1`; and with the default retryable set, exactly the kinds
in `RETRYABLE_ERRORS` (TIMEOUT, NETWORK_ERROR, CONNECTION_ERROR,
DNS_ERROR) are retried. -/
theorem retry_terminal_short_circuit (m : Int) (hm : 1 ≤ m)
    (f : Nat → MonitorResult) (e : ErrorType)
    (hf : (f 0).error_type = some e)
    (he : RETRYABLE_ERRORS.contains e = false) :
    (retry_on_failure_run { max_attempts := m } f).result = some (f 0) ∧
    (retry_on_failure_run { max_attempts := m } f).attempts = 1 ∧
    (retry_on_failure_run { max_attempts := m } f).sleeps = [] ∧
    (∀ k : ErrorType,
      RetryConfig.is_retryable { max_attempts := m } (some k) =
        RETRYABLE_ERRORS.contains k) := by
  obtain ⟨fuel, hfuel⟩ : ∃ k, m.toNat = k + 1 := ⟨m.toNat - 1, by omega⟩
  have hcond :
      RetryConfig.is_retryable { max_attempts := m } ((f 0).error_type) =
        false := by
    rw [hf]; exact he
  unfold retry_on_failure_run
  rw [show ({ max_attempts := m } : RetryConfig).max_attempts.toNat =
    fuel + 1 from hfuel]
  rw [retryGo_not_retryable _ _ _ _ hcond]
  exact ⟨rfl, rfl, rfl, fun k => rfl⟩

/-- C8 witness: an always-404 attempt under `maxAttempts=5` returns after
one attempt without sleeping. -/
theorem retry_terminal_short_circuit_witness :
    (retry_on_failure_run { max_attempts := 5 } f404).result =
      some (f404 0) ∧
    (retry_on_failure_run { max_attempts := 5 } f404).attempts = 1 ∧
    (retry_on_failure_run { max_attempts := 5 } f404).sleeps = [] ∧
    (∀ k : ErrorType,
      RetryConfig.is_retryable { max_attempts := 5 } (some k) =
        RETRYABLE_ERRORS.contains k) :=
  retry_terminal_short_circuit 5 (by decide) f404 ErrorType.http404
    (by decide) (by decide)

/-- C2 counterexample: with `headers={"Authorization": "Basic xyz"}` and
`token="abc"`, the existing `Authorization` value survives untouched but
a SECOND auth header `authorization: Bearer abc` is added (the first of
the three candidate names not already present), so two of the three auth
header names are present afterwards. -/
theorem prepare_headers_adds_second_auth_header :
    HTTPHandler.prepare_headers [("Authorization", "Basic xyz")]
        (some "abc") =
      [("Authorization", "Basic xyz"), ("Content-Type", "application/json"),
       ("authorization", "Bearer abc"),
       ("User-Agent", "Interface-Monitor/1.0")] ∧
    Dict.get? (HTTPHandler.prepare_headers [("Authorization", "Basic xyz")]
        (some "abc")) "Authorization" = some "Basic xyz" ∧
    Dict.get? (HTTPHandler.prepare_headers [("Authorization", "Basic xyz")]
        (some "abc")) "authorization" = some "Bearer abc" ∧
    HTTPHandler.authNamesPresent
        (HTTPHandler.prepare_headers [("Authorization", "Basic xyz")]
          (some "abc")) = 2 ∧
    HTTPHandler.authNamesPresent [("Authorization", "Basic xyz")] = 1 := by
  decide

/-- Helper: a result delivered by the retry loop is one of the wrapped
function's return values. -/
theorem retryGo_result_some (config : RetryConfig) (f : Nat → MonitorResult) :
    ∀ fuel attempt r, (retryGo config f attempt fuel).result = some r →
      ∃ i, r = f i := by
  intro fuel
  induction fuel with
  | zero => intro attempt r h; exact absurd h (by simp [retryGo])
  | succ n ih =>
    intro attempt r h
    unfold retryGo at h
    dsimp only at h
    split at h
    · exact ih (attempt + 1) r h
    · exact ⟨attempt, by injection h with h2; exact h2.symm⟩

/-- Helper: a result returned by `execute_with_retry` is one of the
single-attempt results with `retry_count` overwritten to 0. -/
theorem execute_with_retry_some (itf : Interface) (tok : Option String)
    (events : Nat → AttemptEvent) (ma : Option Int) (rc : RetryConfig)
    (r : MonitorResult)
    (h : HTTPExecutor.execute_with_retry itf tok events ma rc = some r) :
    ∃ i, r = { HTTPExecutor.execute_once itf tok (events i) with
                retry_count := 0 } := by
  unfold HTTPExecutor.execute_with_retry at h
  dsimp only at h
  rw [Option.map_eq_some'] at h
  obtain ⟨r0, h2, hr⟩ := h
  obtain ⟨i, hi⟩ :=
    retryGo_result_some {} (fun i => HTTPExecutor.execute_once itf tok (events i))
      (({} : RetryConfig).max_attempts.toNat) 0 r0 h2
  exact ⟨i, by rw [← hr, hi]⟩

/-- Helper: every single-attempt result carries the probed interface. -/
theorem execute_once_interface (itf : Interface) (tok : Option String)
    (ev : AttemptEvent) :
    (HTTPExecutor.execute_once itf tok ev).interface = some itf := by
  cases ev <;> rfl

/-- Helper: `_execute_single` always returns a result carrying the probed
interface. -/
theorem execute_single_interface (e : MonitorEngine) (itf : Interface)
    (tok : Option String) (events : Nat → AttemptEvent) :
    (MonitorEngine.execute_single_ e itf tok events).interface = some itf := by
  unfold MonitorEngine.execute_single_
  cases h : HTTPExecutor.execute_with_retry itf tok events none e.retry_config with
  | none => rfl
  | some r =>
    obtain ⟨i, hi⟩ := execute_with_retry_some itf tok events none e.retry_config r h
    rw [hi]
    exact execute_once_interface itf tok (events i)

/-- Helper: each parallel collection slot carries its own interface. -/
theorem collectStep_interface (e : MonitorEngine) (env : ExecEnv)
    (tm : List (String × String)) (i : Nat) (itf : Interface) :
    (MonitorEngine.collectStep e env tm i itf).interface = some itf := by
  unfold MonitorEngine.collectStep
  cases env.deliver i with
  | none => exact execute_single_interface e itf _ _
  | some msg => rfl

/-- Helper: the serial loop yields exactly one result per interface, in
input order. -/
theorem serialLoop_map_interface (e : MonitorEngine) (env : ExecEnv)
    (tm : List (String × String)) :
    ∀ itfs i, (MonitorEngine.serialLoop e env tm i itfs).map
      (fun r => r.interface) = itfs.map some := by
  intro itfs
  induction itfs with
  | nil => intro i; rfl
  | cons a l ih =>
    intro i
    simp only [MonitorEngine.serialLoop, List.map_cons, ih (i + 1),
      execute_single_interface]

/-- Helper: the parallel collection yields exactly one result per
interface, in submission order. -/
theorem parallelCollect_map_interface (e : MonitorEngine) (env : ExecEnv)
    (tm : List (String × String)) :
    ∀ itfs i, (MonitorEngine.parallelCollect e env tm i itfs).map
      (fun r => r.interface) = itfs.map some := by
  intro itfs
  induction itfs with
  | nil => intro i; rfl
  | cons a l ih =>
    intro i
    simp only [MonitorEngine.parallelCollect, List.map_cons, ih (i + 1),
      collectStep_interface]

/-- C5: for every non-empty interface list, `execute` returns exactly one
result per input interface and `results[i]` is the result for
`interfaces[i]` — output order equals input order because results are
collected in submission order. -/
theorem execute_preserves_order (e : MonitorEngine) (env : ExecEnv)
    (interfaces : List Interface) (tm : List (String × String))
    (hne : interfaces ≠ []) :
    (e.execute env interfaces tm).length = interfaces.length ∧
    (e.execute env interfaces tm).map (fun r => r.interface) =
      interfaces.map some := by
  have hmap : (e.execute env interfaces tm).map (fun r => r.interface) =
      interfaces.map some := by
    cases interfaces with
    | nil => exact absurd rfl hne
    | cons a l =>
      unfold MonitorEngine.execute
      dsimp only
      split
      · exact serialLoop_map_interface e env tm (a :: l) 0
      · exact parallelCollect_map_interface e env tm (a :: l) 0
  refine ⟨?_, hmap⟩
  have := congrArg List.length hmap
  simpa using this

/-- C5 witness: two interfaces probed in parallel mode yield two results
in input order. -/
theorem execute_preserves_order_witness :
    (ENGINE.execute ENV_OK [IFACE, IFACE2]
      [("user-service", "tok")]).length = 2 ∧
    (ENGINE.execute ENV_OK [IFACE, IFACE2]
        [("user-service", "tok")]).map (fun r => r.interface) =
      [some IFACE, some IFACE2] :=
  execute_preserves_order ENGINE ENV_OK [IFACE, IFACE2]
    [("user-service", "tok")] (by decide)

/-- Helper: the `i`-th collected result of the parallel branch comes from
the `i`-th submitted interface. -/
theorem parallelCollect_getElem (e : MonitorEngine) (env : ExecEnv)
    (tm : List (String × String)) :
    ∀ (itfs : List Interface) (k i : Nat),
      (MonitorEngine.parallelCollect e env tm k itfs)[i]? =
        (itfs[i]?).map
          (fun itf => MonitorEngine.collectStep e env tm (k + i) itf) := by
  intro itfs
  induction itfs with
  | nil => intro k i; simp [MonitorEngine.parallelCollect]
  | cons a l ih =>
    intro k i
    cases i with
    | zero => simp [MonitorEngine.parallelCollect]
    | succ n =>
      have hk : k + 1 + n = k + (n + 1) := by omega
      simp only [MonitorEngine.parallelCollect, List.getElem?_cons_succ,
        ih (k + 1) n, hk]

/-- C4: `execute` never raises for an individual interface failure: it
always yields exactly one result per interface; an unexpected exception
inside an attempt becomes an `UNKNOWN_ERROR` result; and in parallel mode
a worker whose future raises at collection (unexpected escape or
exceeding the `2×timeout` wait) is recorded as an `UNKNOWN_ERROR` result
in its slot. -/
theorem execute_isolates_failures (e : MonitorEngine) (env : ExecEnv)
    (interfaces : List Interface) (tm : List (String × String)) :
    (e.execute env interfaces tm).length = interfaces.length ∧
    (∀ (itf : Interface) (tok : Option String) (msg : String) (rt : ℚ),
      (HTTPExecutor.execute_once itf tok
          (AttemptEvent.unexpected msg rt)).status = "FAILED" ∧
      (HTTPExecutor.execute_once itf tok
          (AttemptEvent.unexpected msg rt)).error_type =
        some ErrorType.unknownError) ∧
    (¬ (e.request_interval > 0 ∧ e.concurrency = 1) →
      ∀ (i : Nat) (msg : String) (itf : Interface),
        env.deliver i = some msg → interfaces[i]? = some itf →
          (e.execute env interfaces tm)[i]? =
            some (MonitorEngine.worker_error_result itf msg) ∧
          (MonitorEngine.worker_error_result itf msg).status = "FAILED" ∧
          (MonitorEngine.worker_error_result itf msg).error_type =
            some ErrorType.unknownError) := by
  refine ⟨?_, fun itf tok msg rt => ⟨rfl, rfl⟩, ?_⟩
  · cases interfaces with
    | nil => rfl
    | cons a l =>
      unfold MonitorEngine.execute
      dsimp only
      split
      · have := congrArg List.length (serialLoop_map_interface e env tm (a :: l) 0)
        simpa using this
      · have := congrArg List.length
          (parallelCollect_map_interface e env tm (a :: l) 0)
        simpa using this
  · intro hser i msg itf hdel hitf
    refine ⟨?_, rfl, rfl⟩
    cases interfaces with
    | nil => exact absurd hitf (by simp)
    | cons a l =>
      unfold MonitorEngine.execute
      dsimp only
      rw [if_neg hser, parallelCollect_getElem e env tm (a :: l) 0 i, hitf]
      simp only [Option.map_some, Nat.zero_add]
      unfold MonitorEngine.collectStep
      rw [hdel]
      rfl

/-- C4 witness: with two interfaces in parallel mode and the future of
submission 1 raising at collection, every interface still yields exactly
one result and slot 1 holds an `UNKNOWN_ERROR` result. -/
theorem execute_isolates_failures_witness :
    (ENGINE.execute ENV_FAIL1 [IFACE, IFACE2] []).length = 2 ∧
    (ENGINE.execute ENV_FAIL1 [IFACE, IFACE2] [])[1]? =
      some (MonitorEngine.worker_error_result IFACE2
        "collection wait exceeded") ∧
    (MonitorEngine.worker_error_result IFACE2
        "collection wait exceeded").error_type =
      some ErrorType.unknownError :=
  ⟨(execute_isolates_failures ENGINE ENV_FAIL1 [IFACE, IFACE2] []).1,
   ((execute_isolates_failures ENGINE ENV_FAIL1 [IFACE, IFACE2] []).2.2
      (by decide) 1 "collection wait exceeded" IFACE2 rfl rfl).1,
   ((execute_isolates_failures ENGINE ENV_FAIL1 [IFACE, IFACE2] []).2.2
      (by decide) 1 "collection wait exceeded" IFACE2 rfl rfl).2.2⟩

/-- Helper: the classification tuple already satisfies the three-way
invariant: SUCCESS iff no error kind iff a status code `< 400`. -/
theorem parse_response_invariant (code : Int) :
    ((ResponseHandler.parse_response code).status = "SUCCESS" ↔
      (ResponseHandler.parse_response code).error_type = none) ∧
    ((ResponseHandler.parse_response code).status = "SUCCESS" ↔
      ∃ c, (ResponseHandler.parse_response code).status_code = some c ∧
        c < 400) := by
  unfold ResponseHandler.parse_response
  split_ifs with h1 h2 h3 h4 h5 h6 <;> simp_all

/-- Helper: every single-attempt result satisfies the three-way
invariant. -/
theorem execute_once_invariant (itf : Interface) (tok : Option String)
    (ev : AttemptEvent) :
    ((HTTPExecutor.execute_once itf tok ev).status = "SUCCESS" ↔
      (HTTPExecutor.execute_once itf tok ev).error_type = none) ∧
    ((HTTPExecutor.execute_once itf tok ev).status = "SUCCESS" ↔
      ∃ c, (HTTPExecutor.execute_once itf tok ev).status_code = some c ∧
        c < 400) := by
  cases ev with
  | response code rt => exact parse_response_invariant code
  | timedOut rt => simp [HTTPExecutor.execute_once, ResponseHandler.handle_timeout]
  | requestError n m rt =>
    simp [HTTPExecutor.execute_once, ResponseHandler.handle_network_error]
  | unexpected m rt => simp [HTTPExecutor.execute_once]

/-- Helper: `_execute_single` preserves the three-way invariant (its
`retry_count := 0` update touches none of the three fields, and its
exception fallback is a FAILED/UNKNOWN result). -/
theorem execute_single_invariant (e : MonitorEngine) (itf : Interface)
    (tok : Option String) (events : Nat → AttemptEvent) :
    ((MonitorEngine.execute_single_ e itf tok events).status = "SUCCESS" ↔
      (MonitorEngine.execute_single_ e itf tok events).error_type = none) ∧
    ((MonitorEngine.execute_single_ e itf tok events).status = "SUCCESS" ↔
      ∃ c, (MonitorEngine.execute_single_ e itf tok events).status_code =
        some c ∧ c < 400) := by
  unfold MonitorEngine.execute_single_
  cases h : HTTPExecutor.execute_with_retry itf tok events none e.retry_config with
  | none => simp
  | some r =>
    obtain ⟨i, hi⟩ := execute_with_retry_some itf tok events none e.retry_config r h
    rw [hi]
    exact execute_once_invariant itf tok (events i)

/-- Helper: the collection-failure result satisfies the three-way
invariant. -/
theorem worker_error_result_invariant (itf : Interface) (msg : String) :
    ((MonitorEngine.worker_error_result itf msg).status = "SUCCESS" ↔
      (MonitorEngine.worker_error_result itf msg).error_type = none) ∧
    ((MonitorEngine.worker_error_result itf msg).status = "SUCCESS" ↔
      ∃ c, (MonitorEngine.worker_error_result itf msg).status_code = some c ∧
        c < 400) := by
  simp [MonitorEngine.worker_error_result]

/-- Helper: every result of the serial branch satisfies the invariant. -/
theorem serialLoop_invariant (e : MonitorEngine) (env : ExecEnv)
    (tm : List (String × String)) :
    ∀ (itfs : List Interface) (k : Nat) (r : MonitorResult),
      r ∈ MonitorEngine.serialLoop e env tm k itfs →
        ((r.status = "SUCCESS" ↔ r.error_type = none) ∧
         (r.status = "SUCCESS" ↔ ∃ c, r.status_code = some c ∧ c < 400)) := by
  intro itfs
  induction itfs with
  | nil => intro k r h; exact absurd h (by simp [MonitorEngine.serialLoop])
  | cons a l ih =>
    intro k r h
    rcases List.mem_cons.mp h with h0 | h1
    · rw [h0]; exact execute_single_invariant e a _ _
    · exact ih (k + 1) r h1

/-- Helper: every result of the parallel branch satisfies the
invariant. -/
theorem parallelCollect_invariant (e : MonitorEngine) (env : ExecEnv)
    (tm : List (String × String)) :
    ∀ (itfs : List Interface) (k : Nat) (r : MonitorResult),
      r ∈ MonitorEngine.parallelCollect e env tm k itfs →
        ((r.status = "SUCCESS" ↔ r.error_type = none) ∧
         (r.status = "SUCCESS" ↔ ∃ c, r.status_code = some c ∧ c < 400)) := by
  intro itfs
  induction itfs with
  | nil => intro k r h; exact absurd h (by simp [MonitorEngine.parallelCollect])
  | cons a l ih =>
    intro k r h
    rcases List.mem_cons.mp h with h0 | h1
    · rw [h0]
      unfold MonitorEngine.collectStep
      cases env.deliver k with
      | none => exact execute_single_invariant e a _ _
      | some msg => exact worker_error_result_invariant a msg
    · exact ih (k + 1) r h1

/-- C9: every `MonitorResult` produced by the engine satisfies the
three-way invariant: `status = SUCCESS` iff `statusCode` is present and
`< 400` iff `errorKind` is nil. -/
theorem execute_results_invariant (e : MonitorEngine) (env : ExecEnv)
    (interfaces : List Interface) (tm : List (String × String))
    (r : MonitorResult) (hr : r ∈ e.execute env interfaces tm) :
    (r.status = "SUCCESS" ↔ r.error_type = none) ∧
    (r.status = "SUCCESS" ↔ ∃ c, r.status_code = some c ∧ c < 400) := by
  cases interfaces with
  | nil => exact absurd hr (by simp [MonitorEngine.execute])
  | cons a l =>
    unfold MonitorEngine.execute at hr
    dsimp only at hr
    by_cases hc : e.request_interval > 0 ∧ e.concurrency = 1
    · rw [if_pos hc] at hr
      exact serialLoop_invariant e env tm (a :: l) 0 r hr
    · rw [if_neg hc] at hr
      exact parallelCollect_invariant e env tm (a :: l) 0 r hr

/-- C9 witness: the SUCCESS result of a 200-response probe is in the
output of a concrete run and satisfies the invariant. -/
theorem execute_results_invariant_witness :
    ({ interface := some IFACE, status := "SUCCESS", status_code := some 200,
       response_time := 5, error_type := none, error_message := none,
       retry_count := 0 } : MonitorResult).status = "SUCCESS" ↔
      ∃ c, ({ interface := some IFACE, status := "SUCCESS",
              status_code := some 200, response_time := 5,
              error_type := none, error_message := none,
              retry_count := 0 } : MonitorResult).status_code = some c ∧
        c < 400 :=
  (execute_results_invariant ENGINE ENV_OK [IFACE] []
    { interface := some IFACE, status := "SUCCESS", status_code := some 200,
      response_time := 5, error_type := none, error_message := none,
      retry_count := 0 } (by decide)).2

/-- Helper: membership in an appended map. -/
theorem Dict.contains_append (m l : List (String × String)) (k : String) :
    Dict.contains (m ++ l) k = (Dict.contains m k || Dict.contains l k) := by
  simp [Dict.contains, List.any_append]

/-- Helper: appending does not change the binding of a key already
present. -/
theorem Dict.get?_append_left (m l : List (String × String)) (k : String)
    (h : Dict.contains m k = true) :
    Dict.get? (m ++ l) k = Dict.get? m k := by
  induction m with
  | nil => simp [Dict.contains] at h
  | cons p rest ih =>
    by_cases hp : (p.1 == k) = true
    · simp [Dict.get?, List.find?, hp]
    · have hp' : (p.1 == k) = false := by
        cases hq : (p.1 == k); rfl; exact absurd hq hp
      have h' : Dict.contains rest k = true := by
        simpa [Dict.contains, hp'] using h
      simp only [List.cons_append, Dict.get?, List.find?, hp', cond_false]
      exact ih h'

/-- Helper: looking up a key absent from the prefix searches the
suffix. -/
theorem Dict.get?_append_right (m l : List (String × String)) (k : String)
    (h : Dict.contains m k = false) :
    Dict.get? (m ++ l) k = Dict.get? l k := by
  induction m with
  | nil => rfl
  | cons p rest ih =>
    have hp : (p.1 == k) = false := by
      cases hq : (p.1 == k)
      · rfl
      · rw [Dict.contains, List.any_cons, hq] at h; simp at h
    have h' : Dict.contains rest k = false := by
      rw [Dict.contains, List.any_cons, hp] at h; simpa [Dict.contains] using h
    simp only [List.cons_append, Dict.get?, List.find?, hp, cond_false]
    exact ih h'

/-- Helper: assignment of an absent key appends it (Python dicts preserve
insertion order). -/
theorem Dict.set_absent (m : List (String × String)) (k v : String)
    (h : Dict.contains m k = false) :
    Dict.set m k v = m ++ [(k, v)] := by
  simp [Dict.set, h]

/-- Helper: the guarded default-header insertions of `prepare_headers`
never touch the binding of a key already present, and never change
membership of any name other than the inserted one. -/
theorem guarded_set_facts (m : List (String × String)) (x y v : String) :
    (∀ k, Dict.contains m k = true →
      Dict.get? (if ¬ Dict.contains m x ∧ ¬ Dict.contains m y then
        Dict.set m x v else m) k = Dict.get? m k) ∧
    (∀ n, (x == n) = false →
      Dict.contains (if ¬ Dict.contains m x ∧ ¬ Dict.contains m y then
        Dict.set m x v else m) n = Dict.contains m n) ∧
    (∀ n, Dict.contains m n = true →
      Dict.contains (if ¬ Dict.contains m x ∧ ¬ Dict.contains m y then
        Dict.set m x v else m) n = true) := by
  by_cases hg : ¬ Dict.contains m x ∧ ¬ Dict.contains m y
  · rw [if_pos hg]
    have hx : Dict.contains m x = false := by
      cases h : Dict.contains m x
      · rfl
      · exact absurd h hg.1
    rw [Dict.set_absent m x v hx]
    refine ⟨fun k hk => Dict.get?_append_left m _ k hk, fun n hn => ?_,
      fun n hn => ?_⟩
    · rw [Dict.contains_append]
      simp [Dict.contains, hn]
    · rw [Dict.contains_append]
      simp [hn]
  · rw [if_neg hg]
    exact ⟨fun k _ => rfl, fun n _ => rfl, fun n hn => hn⟩

/-- Helper: behaviour of the token-injection loop when `Authorization` is
already present: the token goes to the first absent candidate name,
nothing present is touched, and when all three names are present nothing
is written. -/
theorem injectToken_facts (m : List (String × String)) (t : String)
    (hA : Dict.contains m "Authorization" = true) :
    (∀ k, Dict.contains m k = true →
      Dict.get? (HTTPHandler.injectToken m t) k = Dict.get? m k) ∧
    (Dict.contains m "authorization" = false →
      Dict.get? (HTTPHandler.injectToken m t) "authorization" =
        some ("Bearer " ++ t) ∧
      Dict.contains (HTTPHandler.injectToken m t) "Auth-Token" =
        Dict.contains m "Auth-Token") ∧
    (Dict.contains m "authorization" = true →
      Dict.contains m "Auth-Token" = false →
      Dict.get? (HTTPHandler.injectToken m t) "Auth-Token" =
        some ("Bearer " ++ t)) ∧
    (Dict.contains m "authorization" = true →
      Dict.contains m "Auth-Token" = true →
      HTTPHandler.injectToken m t = m) ∧
    (∀ n, Dict.contains m n = true →
      Dict.contains (HTTPHandler.injectToken m t) n = true) := by
  by_cases hlow : Dict.contains m "authorization" = true
  · by_cases hAT : Dict.contains m "Auth-Token" = true
    · have hinj : HTTPHandler.injectToken m t = m := by
        unfold HTTPHandler.injectToken HTTPHandler.AUTH_HEADER_NAMES
        simp [List.find?, hA, hlow, hAT]
      rw [hinj]
      exact ⟨fun k _ => rfl,
        fun hc => absurd (hlow.symm.trans hc) (by decide),
        fun _ hc => absurd (hAT.symm.trans hc) (by decide),
        fun _ _ => rfl, fun n hn => hn⟩
    · have hAT' : Dict.contains m "Auth-Token" = false := by
        cases hq : Dict.contains m "Auth-Token"; rfl; exact absurd hq hAT
      have hinj : HTTPHandler.injectToken m t =
          m ++ [("Auth-Token", "Bearer " ++ t)] := by
        unfold HTTPHandler.injectToken HTTPHandler.AUTH_HEADER_NAMES
        simp only [List.find?, hA, hlow, hAT', Bool.not_true, Bool.not_false,
          cond_true, cond_false]
        exact Dict.set_absent m _ _ hAT'
      rw [hinj]
      refine ⟨fun k hk => Dict.get?_append_left m _ k hk,
        fun hc => absurd (hlow.symm.trans hc) (by decide),
        fun _ _ => ?_,
        fun _ hc => absurd (hAT'.symm.trans hc) (by decide),
        fun n hn => ?_⟩
      · rw [Dict.get?_append_right m _ _ hAT']
        rfl
      · rw [Dict.contains_append]
        simp [hn]
  · have hlow' : Dict.contains m "authorization" = false := by
      cases hq : Dict.contains m "authorization"; rfl; exact absurd hq hlow
    have hinj : HTTPHandler.injectToken m t =
        m ++ [("authorization", "Bearer " ++ t)] := by
      unfold HTTPHandler.injectToken HTTPHandler.AUTH_HEADER_NAMES
      simp only [List.find?, hA, hlow', Bool.not_true, Bool.not_false,
        cond_true, cond_false]
      exact Dict.set_absent m _ _ hlow'
    rw [hinj]
    refine ⟨fun k hk => Dict.get?_append_left m _ k hk,
      fun _ => ⟨?_, ?_⟩,
      fun hc _ => absurd (hlow'.symm.trans hc) (by decide),
      fun hc _ => absurd (hlow'.symm.trans hc) (by decide),
      fun n hn => ?_⟩
    · rw [Dict.get?_append_right m _ _ hlow']
      rfl
    · rw [Dict.contains_append]
      simp [Dict.contains]
    · rw [Dict.contains_append]
      simp [hn]

/-- Helper: a successful lookup witnesses membership. -/
theorem Dict.contains_of_get? (m : List (String × String)) (k v : String)
    (h : Dict.get? m k = some v) : Dict.contains m k = true := by
  unfold Dict.get? at h
  cases hf : List.find? (fun p => p.1 == k) m with
  | none => rw [hf] at h; exact absurd h (by simp)
  | some p =>
    have hp := List.find?_some hf
    have hm := List.mem_of_find?_eq_some hf
    exact List.any_eq_true.mpr ⟨p, hm, hp⟩

/-- Helper: when all three auth names are present the auth-name count is
3. -/
theorem authNamesPresent_eq_three (m : List (String × String))
    (h1 : Dict.contains m "Authorization" = true)
    (h2 : Dict.contains m "authorization" = true)
    (h3 : Dict.contains m "Auth-Token" = true) :
    HTTPHandler.authNamesPresent m = 3 := by
  simp [HTTPHandler.authNamesPresent, HTTPHandler.AUTH_HEADER_NAMES, h1, h2, h3]

/-- C2 amended: for a non-empty token and headers that already contain
`Authorization`, `prepare_headers` never overwrites an existing header
(so the `Authorization` value stays untouched) and injects the bearer
token under the FIRST of `Authorization`, `authorization`, `Auth-Token`
not already present — hence a SECOND auth header IS added (under
`authorization`, or `Auth-Token` when the lowercase variant is also
present) unless all three names were already present; the candidate
names it does not pick keep their membership, so at most one of the
three is added. -/
theorem prepare_headers_auth_injection (headers : List (String × String))
    (t : String) (ht : t ≠ "")
    (hauth : Dict.contains headers "Authorization" = true) :
    (∀ k, Dict.contains headers k = true →
      Dict.get? (HTTPHandler.prepare_headers headers (some t)) k =
        Dict.get? headers k) ∧
    (Dict.contains headers "authorization" = false →
      Dict.get? (HTTPHandler.prepare_headers headers (some t))
          "authorization" = some ("Bearer " ++ t) ∧
      Dict.contains (HTTPHandler.prepare_headers headers (some t))
          "Auth-Token" = Dict.contains headers "Auth-Token") ∧
    (Dict.contains headers "authorization" = true →
      Dict.contains headers "Auth-Token" = false →
      Dict.get? (HTTPHandler.prepare_headers headers (some t))
          "Auth-Token" = some ("Bearer " ++ t)) ∧
    (Dict.contains headers "authorization" = true →
      Dict.contains headers "Auth-Token" = true →
      HTTPHandler.authNamesPresent
          (HTTPHandler.prepare_headers headers (some t)) = 3 ∧
      HTTPHandler.authNamesPresent headers = 3) := by
  have hout : HTTPHandler.prepare_headers headers (some t) =
      (if ¬ Dict.contains (HTTPHandler.injectToken
            (if ¬ Dict.contains headers "Content-Type" ∧
                ¬ Dict.contains headers "content-type" then
              Dict.set headers "Content-Type" "application/json"
            else headers) t) "User-Agent" ∧
          ¬ Dict.contains (HTTPHandler.injectToken
            (if ¬ Dict.contains headers "Content-Type" ∧
                ¬ Dict.contains headers "content-type" then
              Dict.set headers "Content-Type" "application/json"
            else headers) t) "user-agent" then
        Dict.set (HTTPHandler.injectToken
            (if ¬ Dict.contains headers "Content-Type" ∧
                ¬ Dict.contains headers "content-type" then
              Dict.set headers "Content-Type" "application/json"
            else headers) t) "User-Agent" "Interface-Monitor/1.0"
      else HTTPHandler.injectToken
            (if ¬ Dict.contains headers "Content-Type" ∧
                ¬ Dict.contains headers "content-type" then
              Dict.set headers "Content-Type" "application/json"
            else headers) t) := by
    unfold HTTPHandler.prepare_headers
    dsimp only
    rw [if_pos ht]
  have g1 := guarded_set_facts headers "Content-Type" "content-type"
    "application/json"
  have hA1 := (g1.2.1 "Authorization" (by decide)).trans hauth
  have inj := injectToken_facts _ t hA1
  have g3 := guarded_set_facts (HTTPHandler.injectToken
    (if ¬ Dict.contains headers "Content-Type" ∧
        ¬ Dict.contains headers "content-type" then
      Dict.set headers "Content-Type" "application/json"
    else headers) t) "User-Agent" "user-agent" "Interface-Monitor/1.0"
  rw [hout]
  refine ⟨?_, ?_, ?_, ?_⟩
  · intro k hk
    have hk1 := g1.2.2 k hk
    have hk2 := inj.2.2.2.2 k hk1
    exact (g3.1 k hk2).trans ((inj.1 k hk1).trans (g1.1 k hk))
  · intro hc
    have hc1 := (g1.2.1 "authorization" (by decide)).trans hc
    obtain ⟨hbear, hATpres⟩ := inj.2.1 hc1
    constructor
    · have hc2 := Dict.contains_of_get? _ "authorization" _ hbear
      exact (g3.1 "authorization" hc2).trans hbear
    · exact (g3.2.1 "Auth-Token" (by decide)).trans
        (hATpres.trans (g1.2.1 "Auth-Token" (by decide)))
  · intro hc hat
    have hc1 := (g1.2.1 "authorization" (by decide)).trans hc
    have hat1 := (g1.2.1 "Auth-Token" (by decide)).trans hat
    have hbear := inj.2.2.1 hc1 hat1
    have hc2 := Dict.contains_of_get? _ "Auth-Token" _ hbear
    exact (g3.1 "Auth-Token" hc2).trans hbear
  · intro hc hat
    have hc1 := (g1.2.1 "authorization" (by decide)).trans hc
    have hat1 := (g1.2.1 "Auth-Token" (by decide)).trans hat
    have hm2 := inj.2.2.2.1 hc1 hat1
    refine ⟨authNamesPresent_eq_three _ ?_ ?_ ?_,
      authNamesPresent_eq_three headers hauth hc hat⟩
    · exact g3.2.2 "Authorization" (by rw [hm2]; exact hA1)
    · exact g3.2.2 "authorization" (by rw [hm2]; exact hc1)
    · exact g3.2.2 "Auth-Token" (by rw [hm2]; exact hat1)

/-- C2 amended witness: with `Authorization: Basic xyz` present and token
`abc`, the existing value is untouched and the token lands under the
lowercase `authorization` name. -/
theorem prepare_headers_auth_injection_witness :
    Dict.get? (HTTPHandler.prepare_headers [("Authorization", "Basic xyz")]
        (some "abc")) "Authorization" = some "Basic xyz" ∧
    Dict.get? (HTTPHandler.prepare_headers [("Authorization", "Basic xyz")]
        (some "abc")) "authorization" = some ("Bearer " ++ "abc") :=
  ⟨((prepare_headers_auth_injection [("Authorization", "Basic xyz")] "abc"
      (by decide) (by decide)).1 "Authorization" (by decide)).trans (by decide),
   ((prepare_headers_auth_injection [("Authorization", "Basic xyz")] "abc"
      (by decide) (by decide)).2.1 (by decide)).1⟩

end InterfaceMonitoring
